import Mathlib

/-!
Verification of the ChemFacts stats server (`app_stats.py`).

The server exposes one JSON API endpoint, `get_stats`, which
  1. rejects the request with 500 when the `GEMINI_API_KEY` credential is falsy,
  2. rejects the request with 400 when the parsed JSON body is falsy or the
     membership test `query in data` fails,
  3. otherwise forwards the query to the Gemini model (an external capability)
     and relays the `json.loads`-parsed model text back with status 200,
  4. converting any exception from the call or the parse into a 500 error body.

We embed the handler shallowly: JSON values are an inductive type, the
upstream model call and `json.loads` are oracle parameters (they are external
library calls), Python truthiness / `in` / subscripting are given explicit
semantics including the `TypeError` cases that escape the handler, and the
module-level configuration is threaded through as an explicit state so that
frame properties are statable.
-/

/-- A parsed JSON value, the result type of Flask's `request.get_json()` and of
`json.loads`.  Numbers are modelled as integers (the schema sent upstream
declares only `INTEGER` numeric fields). Objects are association lists with
distinct keys, as produced by parsing a JSON document. -/
inductive Json where
  | null : Json
  | bool (b : Bool) : Json
  | num (n : Int) : Json
  | str (s : String) : Json
  | arr (elems : List Json) : Json
  | obj (fields : List (String × Json)) : Json

/-- Python truthiness (`bool(x)`) of a parsed JSON value: `None`, `False`, `0`,
`""`, `[]` and `{}` are falsy, everything else is truthy. -/
def pyTruthy : Json → Bool
  | .null => false
  | .bool b => b
  | .num n => n != 0
  | .str s => s != ""
  | .arr elems => !elems.isEmpty
  | .obj fields => !fields.isEmpty

/-- Truthiness of `os.getenv(...)`: falsy when the variable is unset (`None`)
or set to the empty string.  This is the `not API_KEY` test of the handler. -/
def pyNotOpt : Option String → Bool
  | none => true
  | some s => s == ""

/-- First-match association-list lookup, the dictionary access `d[k]` for a
parsed JSON object (keys are distinct after parsing). -/
def lookupStr : List (String × Json) → String → Option Json
  | [], _ => none
  | (k, v) :: rest, key => if k == key then some v else lookupStr rest key

/-- `pat` occurs as a contiguous substring of `s` (Python `pat in s` on strings). -/
def strContains (s pat : String) : Bool :=
  (List.range (s.toList.length + 1)).any fun i =>
    pat.toList.isPrefixOf (s.toList.drop i)

/-- Python's membership operator `key in data` on a parsed JSON value.
For dictionaries it tests key membership, for lists element equality (a string
literal is `==` only to an equal string), for strings substring containment;
on `None`, booleans and numbers it raises `TypeError`, modelled as `.error`
with the interpreter's message. -/
def pyContains (data : Json) (key : String) : Except String Bool :=
  match data with
  | .obj fields => .ok (fields.any fun p => p.1 == key)
  | .arr elems => .ok (elems.any fun x =>
      match x with
      | .str s => s == key
      | _ => false)
  | .str s => .ok (strContains s key)
  | .num _ => .error "argument of type \x27int\x27 is not iterable"
  | .bool _ => .error "argument of type \x27bool\x27 is not iterable"
  | .null => .error "argument of type \x27NoneType\x27 is not iterable"

/-- Python's subscript `data[key]` with a string key on a parsed JSON value:
dictionary lookup for objects (a `KeyError` when absent), `TypeError` for every
other shape, modelled as `.error` with the interpreter's message. -/
def pySubscript (data : Json) (key : String) : Except String Json :=
  match data with
  | .obj fields =>
    match lookupStr fields key with
    | some v => .ok v
    | none => .error ("KeyError: \x27" ++ key ++ "\x27")
  | .arr _ => .error "list indices must be integers or slices, not str"
  | .str _ => .error "string indices must be integers"
  | .num _ => .error "\x27int\x27 object is not subscriptable"
  | .bool _ => .error "\x27bool\x27 object is not subscriptable"
  | .null => .error "\x27NoneType\x27 object is not subscriptable"

mutual
/-- Python `repr()` of a parsed JSON value (used for values nested inside
containers when the value is interpolated into an f-string). -/
def pyRepr : Json → String
  | .null => "None"
  | .bool true => "True"
  | .bool false => "False"
  | .num n => toString n
  | .str s => "\x27" ++ s ++ "\x27"
  | .arr elems => "[" ++ String.intercalate ", " (pyReprList elems) ++ "]"
  | .obj fields => "\x7b" ++ String.intercalate ", " (pyReprFields fields) ++ "\x7d"

/-- `repr()` of each element of a Python list. -/
def pyReprList : List Json → List String
  | [] => []
  | x :: xs => pyRepr x :: pyReprList xs

/-- `repr()` of each `key: value` entry of a Python dictionary. -/
def pyReprFields : List (String × Json) → List String
  | [] => []
  | (k, v) :: fs => ("\x27" ++ k ++ "\x27: " ++ pyRepr v) :: pyReprFields fs
end

/-- Python `str()` of a parsed JSON value, the f-string interpolation
`f"Generate stats for: \x7buser_query\x7d"`: strings interpolate bare, every
other value through its `repr`. -/
def pyStr : Json → String
  | .str s => s
  | v => pyRepr v

/-- The fixed system instruction `STATS_PROMPT` (source lines 23-38). -/
def STATS_PROMPT : String :=
  "\nYou are a \"Chemical Stats\" generator for a game. A user will provide a\nchemical element symbol (like \x27Fe\x27) or a formula (like \x27H2O\x27).\nYour task is to return a JSON object with \"gamified\" stats for it.\n\nRULES:\n1.  **Query Type**: Determine if the query is a single \x27element\x27 or a \x27molecule\x27.\n2.  **Stats**: Provide ratings from 0 to 10 for each stat.\n    - \x60stability\x60: 0 = falls apart, 10 = extremely stable (like N2).\n    - \x60reactivity\x60: 0 = inert (like He), 10 = extremely reactive (like Fluorine or Sodium).\n    - \x60explosiveness\x60: 0 = not explosive (like H2O), 10 = highly explosive (like TNT or Nitroglycerin).\n3.  **Description**: Write a short, engaging description (1-2 sentences).\n4.  **Fun Fact**: Provide a one-sentence fun fact.\n\nRespond *only* with the JSON object.\n"

/-- The structured-output schema `STATS_SCHEMA` sent with every upstream
request (source lines 40-52), embedded as the JSON value the Python dictionary
denotes. -/
def STATS_SCHEMA : Json :=
  .obj [
    ("type", .str "OBJECT"),
    ("properties", .obj [
      ("name", .obj [("type", .str "STRING"),
        ("description", .str "Common name, e.g., \x27Water\x27 or \x27Iron\x27")]),
      ("query_type", .obj [("type", .str "STRING"),
        ("description", .str "\x27element\x27 or \x27molecule\x27")]),
      ("description", .obj [("type", .str "STRING"),
        ("description", .str "A 1-2 sentence cool description.")]),
      ("stability", .obj [("type", .str "INTEGER"),
        ("description", .str "Rating 0-10")]),
      ("reactivity", .obj [("type", .str "INTEGER"),
        ("description", .str "Rating 0-10")]),
      ("explosiveness", .obj [("type", .str "INTEGER"),
        ("description", .str "Rating 0-10")]),
      ("fun_fact", .obj [("type", .str "STRING"),
        ("description", .str "A one-sentence fun fact.")])
    ]),
    ("required", .arr [.str "name", .str "query_type", .str "description",
      .str "stability", .str "reactivity", .str "explosiveness", .str "fun_fact"])
  ]

/-- The module-level configuration of `app_stats.py`: the credential read once
at startup (line 8), the system instruction, the model name (line 55) and the
generation configuration (lines 59-62).  All of it is established at process
start and only read by the handler. -/
structure ModuleState where
  API_KEY : Option String
  STATS_PROMPT : String
  STATS_SCHEMA : Json
  model_name : String
  response_mime_type : String

/-- The module state as `app_stats.py` initialises it, given the environment
value of `GEMINI_API_KEY`. -/
def initState (key : Option String) : ModuleState :=
  { API_KEY := key
    STATS_PROMPT := STATS_PROMPT
    STATS_SCHEMA := STATS_SCHEMA
    model_name := "gemini-2.5-flash-preview-09-2025"
    response_mime_type := "application/json" }

/-- One request to the external generative capability: the model name and
system instruction fixed at lines 54-57, the generation configuration of lines
59-62, and the per-request content string of line 86. -/
structure GenRequest where
  model : String
  system_instruction : String
  response_mime_type : String
  response_schema : Json
  content : String

/-- The upstream request the handler builds for a query value (lines 85-88):
fixed configuration from the module state plus the f-string content. -/
def mkRequest (st : ModuleState) (user_query : Json) : GenRequest :=
  { model := st.model_name
    system_instruction := st.STATS_PROMPT
    response_mime_type := st.response_mime_type
    response_schema := st.STATS_SCHEMA
    content := "Generate stats for: " ++ pyStr user_query }

/-- The observable outcome of one call of the handler: a `jsonify` response
with an HTTP status code, or an exception that escaped the handler (a
`TypeError` from `in` or subscripting on a non-container body), which Flask
renders as its default error page rather than a handler-produced JSON body. -/
inductive HResult where
  | resp (status : Nat) (body : Json) : HResult
  | uncaught (msg : String) : HResult

/-- The 400 error body of line 79. -/
def missingQueryBody : Json :=
  .obj [("error", .str "Invalid request: \x27query\x27 missing in JSON body")]

/-- The 500 error body of line 74. -/
def missingKeyBody : Json :=
  .obj [("error", .str "Server is missing GEMINI_API_KEY")]

/-- The 500 error body of line 95, embedding the exception text. -/
def genFailBody (e : String) : Json :=
  .obj [("error", .str ("AI stats generation failed: " ++ e))]

/-- The handler `get_stats` (source lines 72-95).

* `generate_content` is the external call `stats_model.generate_content(...)`
  together with the extraction `response.candidates[0].content.parts[0].text`:
  it yields the model's raw text or raises.
* `loads` is `json.loads`: it yields a parsed value or raises.
* `data` is the value `request.get_json()` produced for this request.

The pair returned is (observable outcome, module state after the call); the
handler only reads the module state, so every branch returns `st` unchanged. -/
def get_stats (st : ModuleState)
    (generate_content : GenRequest → Except String String)
    (loads : String → Except String Json)
    (data : Json) : HResult × ModuleState :=
  if pyNotOpt st.API_KEY then
    (.resp 500 missingKeyBody, st)
  else if !pyTruthy data then
    (.resp 400 missingQueryBody, st)
  else
    match pyContains data "query" with
    | .error m => (.uncaught m, st)
    | .ok false => (.resp 400 missingQueryBody, st)
    | .ok true =>
      match pySubscript data "query" with
      | .error m => (.uncaught m, st)
      | .ok user_query =>
        match generate_content (mkRequest st user_query) with
        | .error e => (.resp 500 (genFailBody e), st)
        | .ok stats_text =>
          match loads stats_text with
          | .error e => (.resp 500 (genFailBody e), st)
          | .ok parsed => (.resp 200 parsed, st)

/-- Phases of the per-request interaction with the upstream capability:
idle before any call, awaiting the single response, then done or failed. -/
inductive Phase where
  | idle : Phase
  | awaiting : Phase
  | done : Phase
  | failed : Phase
deriving DecidableEq

/-- The phase sequences the two-state machine of the spec allows: either the
upstream is never contacted, or exactly one awaiting period ends in a terminal
phase; nothing ever follows a terminal phase. -/
def validPhases (ph : List Phase) : Bool :=
  ph = [.idle] || ph = [.idle, .awaiting, .done] || ph = [.idle, .awaiting, .failed]

/-- The handler instrumented with an execution trace: alongside the observable
outcome it records every upstream request issued (in order) and the phase
sequence of the upstream interaction.  Control flow is line for line that of
`get_stats`. -/
def get_statsT (st : ModuleState)
    (generate_content : GenRequest → Except String String)
    (loads : String → Except String Json)
    (data : Json) : HResult × List GenRequest × List Phase :=
  if pyNotOpt st.API_KEY then
    (.resp 500 missingKeyBody, [], [.idle])
  else if !pyTruthy data then
    (.resp 400 missingQueryBody, [], [.idle])
  else
    match pyContains data "query" with
    | .error m => (.uncaught m, [], [.idle])
    | .ok false => (.resp 400 missingQueryBody, [], [.idle])
    | .ok true =>
      match pySubscript data "query" with
      | .error m => (.uncaught m, [], [.idle])
      | .ok user_query =>
        match generate_content (mkRequest st user_query) with
        | .error e =>
          (.resp 500 (genFailBody e), [mkRequest st user_query],
            [.idle, .awaiting, .failed])
        | .ok stats_text =>
          match loads stats_text with
          | .error e =>
            (.resp 500 (genFailBody e), [mkRequest st user_query],
              [.idle, .awaiting, .failed])
          | .ok parsed =>
            (.resp 200 parsed, [mkRequest st user_query],
              [.idle, .awaiting, .done])

/-- Field access on a parsed JSON object; `none` on every other shape. -/
def jget (v : Json) (key : String) : Option Json :=
  match v with
  | .obj fields => lookupStr fields key
  | _ => none

/-- The object `v` carries the key. -/
def hasKey (v : Json) (key : String) : Bool :=
  match v with
  | .obj fields => fields.any fun p => p.1 == key
  | _ => false

/-- A value conforms to one of the primitive type names the schema uses. -/
def primConforms (tyName : String) (v : Json) : Bool :=
  match tyName, v with
  | "STRING", .str _ => true
  | "INTEGER", .num _ => true
  | _, _ => false

/-- The `required` key list a schema value declares. -/
def requiredKeys (schema : Json) : List String :=
  match jget schema "required" with
  | some (.arr elems) => elems.filterMap fun x =>
      match x with
      | .str s => some s
      | _ => none
  | _ => []

/-- The `properties` entries a schema value declares. -/
def propsOf (schema : Json) : List (String × Json) :=
  match jget schema "properties" with
  | some (.obj fields) => fields
  | _ => []

/-- `v` conforms to a one-level `OBJECT` schema of primitive properties, the
shape of `STATS_SCHEMA`: `v` is an object, every required key is present, and
every declared property that is present has the declared primitive type. -/
def schemaConforms (schema v : Json) : Bool :=
  match jget schema "type" with
  | some (.str "OBJECT") =>
    match v with
    | .obj _ =>
      (requiredKeys schema).all (fun k => hasKey v k) &&
      (propsOf schema).all fun p =>
        match jget v p.1 with
        | none => true
        | some x =>
          match jget p.2 "type" with
          | some (.str t) => primConforms t x
          | _ => false
    | _ => false
  | some (.str t) => primConforms t v
  | _ => false

/-- The field `key` of `v` is an integer in the range [0, 10]. -/
def intFieldInRange (v : Json) (key : String) : Bool :=
  match jget v key with
  | some (.num n) => decide (0 ≤ n) && decide (n ≤ 10)
  | _ => false

/-- Modelled from the spec: the rating rubric of `STATS_PROMPT` (source lines
30-33, "Provide ratings from 0 to 10 for each stat"), which the schema cannot
express (its descriptions are free text).  The three numeric stats are
integers within [0, 10]. -/
def ratingsInRange (v : Json) : Bool :=
  intFieldInRange v "stability" && intFieldInRange v "reactivity" &&
    intFieldInRange v "explosiveness"

/-- A concrete Stats Record of the shape the example scenario of the spec
expects for the query `Fe`: all seven fields, ratings within [0, 10]. -/
def goodRecord : Json :=
  .obj [
    ("name", .str "Iron"),
    ("query_type", .str "element"),
    ("description", .str "A strong, abundant metal."),
    ("stability", .num 9),
    ("reactivity", .num 4),
    ("explosiveness", .num 0),
    ("fun_fact", .str "The core of the Earth is mostly iron.")]

/-- A successful dictionary lookup means the membership test succeeds. -/
lemma lookupStr_any {fs : List (String × Json)} {key : String} {v : Json}
    (h : lookupStr fs key = some v) :
    (fs.any fun p => p.1 == key) = true := by
  induction fs with
  | nil => simp [lookupStr] at h
  | cons p rest ih =>
    obtain ⟨k, w⟩ := p
    by_cases hk : k == key
    · simp [List.any_cons, hk]
    · simp only [lookupStr, hk, if_neg, Bool.false_eq_true, ite_false] at h
      simp [List.any_cons, ih h]

/-- A dictionary with a successful lookup is non-empty, hence truthy. -/
lemma lookupStr_truthy {fs : List (String × Json)} {key : String} {v : Json}
    (h : lookupStr fs key = some v) : pyTruthy (.obj fs) = true := by
  cases fs with
  | nil => simp [lookupStr] at h
  | cons p rest => simp [pyTruthy]

/-- Evaluation of the handler on a dictionary body carrying the key `query`
with the credential present: the request is forwarded and the upstream outcome
relayed. -/
lemma get_stats_obj {st : ModuleState}
    {generate_content : GenRequest → Except String String}
    {loads : String → Except String Json} {fs : List (String × Json)} {q : Json}
    (hk : pyNotOpt st.API_KEY = false) (hq : lookupStr fs "query" = some q) :
    get_stats st generate_content loads (.obj fs) =
      match generate_content (mkRequest st q) with
      | .error e => (.resp 500 (genFailBody e), st)
      | .ok stats_text =>
        match loads stats_text with
        | .error e => (.resp 500 (genFailBody e), st)
        | .ok parsed => (.resp 200 parsed, st) := by
  have hne := lookupStr_truthy hq
  have hany := lookupStr_any hq
  simp [get_stats, hk, hne, pyContains, hany, pySubscript, hq]

/-- Same evaluation for the instrumented handler. -/
lemma get_statsT_obj {st : ModuleState}
    {generate_content : GenRequest → Except String String}
    {loads : String → Except String Json} {fs : List (String × Json)} {q : Json}
    (hk : pyNotOpt st.API_KEY = false) (hq : lookupStr fs "query" = some q) :
    get_statsT st generate_content loads (.obj fs) =
      match generate_content (mkRequest st q) with
      | .error e =>
        (.resp 500 (genFailBody e), [mkRequest st q], [.idle, .awaiting, .failed])
      | .ok stats_text =>
        match loads stats_text with
        | .error e =>
          (.resp 500 (genFailBody e), [mkRequest st q], [.idle, .awaiting, .failed])
        | .ok parsed =>
          (.resp 200 parsed, [mkRequest st q], [.idle, .awaiting, .done]) := by
  have hne := lookupStr_truthy hq
  have hany := lookupStr_any hq
  simp [get_statsT, hk, hne, pyContains, hany, pySubscript, hq]

/-- With the credential falsy the handler returns at line 74 before looking at
the body. -/
lemma get_stats_no_key {st : ModuleState}
    {generate_content : GenRequest → Except String String}
    {loads : String → Except String Json} {data : Json}
    (hk : pyNotOpt st.API_KEY = true) :
    get_stats st generate_content loads data = (.resp 500 missingKeyBody, st) := by
  simp [get_stats, hk]

/-- With the credential present, a falsy body or a failed membership test
returns the 400 error of line 79. -/
lemma get_stats_400 {st : ModuleState}
    {generate_content : GenRequest → Except String String}
    {loads : String → Except String Json} {data : Json}
    (hk : pyNotOpt st.API_KEY = false)
    (hv : pyTruthy data = false ∨ pyContains data "query" = .ok false) :
    get_stats st generate_content loads data = (.resp 400 missingQueryBody, st) := by
  rcases hv with hv | hv
  · simp [get_stats, hk, hv]
  · rcases hd : pyTruthy data with _ | _
    · simp [get_stats, hk, hd]
    · simp [get_stats, hk, hd, hv]

/-- A successful membership test on a dictionary yields a successful lookup. -/
lemma any_lookupStr {fs : List (String × Json)} {key : String}
    (h : (fs.any fun p => p.1 == key) = true) :
    ∃ v, lookupStr fs key = some v := by
  induction fs with
  | nil => simp at h
  | cons p rest ih =>
    obtain ⟨k, w⟩ := p
    by_cases hk : k == key
    · exact ⟨w, by simp [lookupStr, hk]⟩
    · simp only [List.any_cons, hk, Bool.false_or] at h
      obtain ⟨v, hv⟩ := ih h
      exact ⟨v, by simp [lookupStr, hk, hv]⟩

/-- Unpacking a range-checked integer field. -/
lemma intFieldInRange_spec {v : Json} {key : String}
    (h : intFieldInRange v key = true) :
    ∃ n : Int, jget v key = some (.num n) ∧ 0 ≤ n ∧ n ≤ 10 := by
  unfold intFieldInRange at h
  cases hj : jget v key with
  | none => rw [hj] at h; simp at h
  | some x =>
    rw [hj] at h
    cases x with
    | num n =>
      simp only [Bool.and_eq_true, decide_eq_true_eq] at h
      exact ⟨n, rfl, h.1, h.2⟩
    | null => simp at h
    | bool b => simp at h
    | str s => simp at h
    | arr elems => simp at h
    | obj fields => simp at h

/-- Conformance to `STATS_SCHEMA` guarantees presence of every required key. -/
lemma schemaConforms_required {v : Json}
    (h : schemaConforms STATS_SCHEMA v = true) :
    ∀ k ∈ requiredKeys STATS_SCHEMA, hasKey v k = true := by
  intro k hkmem
  unfold schemaConforms at h
  rw [show jget STATS_SCHEMA "type" = some (.str "OBJECT") from rfl] at h
  cases v with
  | obj fields =>
    simp only [Bool.and_eq_true] at h
    exact List.all_eq_true.mp h.1 k hkmem
  | null => simp at h
  | bool b => simp at h
  | num n => simp at h
  | str s => simp at h
  | arr elems => simp at h

/-- The instrumented handler computes the same observable outcome as the
handler itself. -/
lemma get_statsT_fst (st : ModuleState)
    (generate_content : GenRequest → Except String String)
    (loads : String → Except String Json) (data : Json) :
    (get_statsT st generate_content loads data).1 =
      (get_stats st generate_content loads data).1 := by
  unfold get_stats get_statsT
  cases hk : pyNotOpt st.API_KEY with
  | true => simp
  | false =>
    cases ht : pyTruthy data with
    | false => simp
    | true =>
      simp only [Bool.not_true, Bool.false_eq_true, if_false]
      cases hc : pyContains data "query" with
      | error m => simp [hc]
      | ok b =>
        cases b with
        | false => simp [hc]
        | true =>
          cases hs : pySubscript data "query" with
          | error m => simp [hc, hs]
          | ok q =>
            cases hg : generate_content (mkRequest st q) with
            | error e => simp [hc, hs, hg]
            | ok t =>
              cases hl : loads t with
              | error e => simp [hc, hs, hg, hl]
              | ok v => simp [hc, hs, hg, hl]

/-- C3: for every request, if the credential `GEMINI_API_KEY` is unset then the
stats endpoint returns status 500 with an `error` field carrying the fixed
message `Server is missing GEMINI_API_KEY`, regardless of the query content. -/
theorem C3_no_credential_500 (st : ModuleState)
    (generate_content : GenRequest → Except String String)
    (loads : String → Except String Json) (data : Json)
    (h : st.API_KEY = none) :
    (get_stats st generate_content loads data).1 = .resp 500 missingKeyBody := by
  have hk : pyNotOpt st.API_KEY = true := by rw [h]; rfl
  rw [get_stats_no_key hk]

/-- Witness for C3 at a concrete input: credential unset, well-formed body. -/
theorem C3_witness :
    (get_stats (initState none) (fun _ => .error "net down")
      (fun _ => .error "bad json") (.obj [("query", .str "Fe")])).1 =
      .resp 500 missingKeyBody :=
  C3_no_credential_500 _ _ _ _ rfl

/-- C9: with the credential unset the response is the same fixed (500, error)
value for any two request bodies: the credential check of line 73 runs before
body parsing and input validation, so even a body missing the `query` key
yields 500, never 400. -/
theorem C9_no_credential_body_independent (st : ModuleState)
    (generate_content : GenRequest → Except String String)
    (loads : String → Except String Json) (data₁ data₂ : Json)
    (h : st.API_KEY = none) :
    (get_stats st generate_content loads data₁).1 =
      (get_stats st generate_content loads data₂).1 ∧
    (get_stats st generate_content loads data₁).1 = .resp 500 missingKeyBody := by
  have hk : pyNotOpt st.API_KEY = true := by rw [h]; rfl
  rw [get_stats_no_key hk, get_stats_no_key hk]
  exact ⟨rfl, rfl⟩

/-- Witness for C9 at concrete inputs: a body missing `query` and a well-formed
body receive the identical 500 response when the credential is unset. -/
theorem C9_witness :
    (get_stats (initState none) (fun _ => .ok "txt") (fun _ => .ok .null)
      (.obj [("other", .str "x")])).1 =
      (get_stats (initState none) (fun _ => .ok "txt") (fun _ => .ok .null)
        (.obj [("query", .str "Fe")])).1 ∧
    (get_stats (initState none) (fun _ => .ok "txt") (fun _ => .ok .null)
      (.obj [("other", .str "x")])).1 = .resp 500 missingKeyBody :=
  C9_no_credential_body_independent _ _ _ _ _ rfl

/-- C8: every invocation of the handler leaves the module-level state
(credential, prompt, schema, model configuration) unchanged, and a second
request run after a first one computes exactly what it would have computed on
the untouched state: requests are independent and share no mutable state. -/
theorem C8_module_state_unchanged (st : ModuleState)
    (generate_content : GenRequest → Except String String)
    (loads : String → Except String Json) (data₁ data₂ : Json) :
    (get_stats st generate_content loads data₁).2 = st ∧
    get_stats (get_stats st generate_content loads data₁).2
        generate_content loads data₂ =
      get_stats st generate_content loads data₂ := by
  have hframe : (get_stats st generate_content loads data₁).2 = st := by
    unfold get_stats
    repeat' split
    all_goals rfl
  exact ⟨hframe, by rw [hframe]⟩

/-- C7: per request the external generation capability is invoked at most once
(the recorded upstream-request trace has length at most one), the phase
sequence of the run is one of the terminal paths of the Idle →
Awaiting-Response → (Done | Failed) machine — never looping back to
Awaiting-Response — and the instrumented run computes the same observable
outcome as the handler. -/
theorem C7_upstream_at_most_once (st : ModuleState)
    (generate_content : GenRequest → Except String String)
    (loads : String → Except String Json) (data : Json) :
    (get_statsT st generate_content loads data).2.1.length ≤ 1 ∧
    validPhases (get_statsT st generate_content loads data).2.2 = true ∧
    (get_statsT st generate_content loads data).1 =
      (get_stats st generate_content loads data).1 := by
  refine ⟨?_, ?_, get_statsT_fst st generate_content loads data⟩
  · unfold get_statsT
    repeat' split
    all_goals simp
  · unfold get_statsT
    repeat' split
    all_goals simp [validPhases]

/-- C5: whatever value the upstream text parses to, the handler returns it
verbatim as the 200 response body: no server-side validation of field
presence, types or numeric ranges happens beyond the parse itself (the parsed
value is arbitrary here, conforming or not). -/
theorem C5_relay_unmodified (st : ModuleState)
    (generate_content : GenRequest → Except String String)
    (loads : String → Except String Json) (fs : List (String × Json))
    (q : Json) (stats_text : String) (parsed : Json)
    (hk : pyNotOpt st.API_KEY = false)
    (hq : lookupStr fs "query" = some q)
    (hg : generate_content (mkRequest st q) = .ok stats_text)
    (hl : loads stats_text = .ok parsed) :
    (get_stats st generate_content loads (.obj fs)).1 = .resp 200 parsed := by
  rw [get_stats_obj hk hq]
  simp [hg, hl]

/-- Witness for C5 at a concrete input: the parsed object violates the schema
(`name` is a number, every other field missing) and is still relayed with 200,
exactly as parsed. -/
theorem C5_witness :
    (get_stats (initState (some "key")) (fun _ => .ok "txt")
      (fun _ => .ok (.obj [("name", .num 3)]))
      (.obj [("query", .str "Fe")])).1 = .resp 200 (.obj [("name", .num 3)]) :=
  C5_relay_unmodified _ _ _ _ _ _ _ rfl rfl rfl rfl

/-- C4: with the credential present and a dictionary body carrying `query`,
every upstream outcome that raises during the external call (left conjunct) or
whose returned text fails to parse as JSON (right conjunct) produces status
500 with the fixed generation-failure message embedding the underlying error
text. -/
theorem C4_upstream_failure_500 (st : ModuleState)
    (generate_content : GenRequest → Except String String)
    (loads : String → Except String Json) (fs : List (String × Json)) (q : Json)
    (hk : pyNotOpt st.API_KEY = false)
    (hq : lookupStr fs "query" = some q) :
    (∀ e, generate_content (mkRequest st q) = .error e →
      (get_stats st generate_content loads (.obj fs)).1 =
        .resp 500 (genFailBody e)) ∧
    (∀ stats_text e, generate_content (mkRequest st q) = .ok stats_text →
      loads stats_text = .error e →
      (get_stats st generate_content loads (.obj fs)).1 =
        .resp 500 (genFailBody e)) := by
  constructor
  · intro e hg
    rw [get_stats_obj hk hq]
    simp [hg]
  · intro stats_text e hg hl
    rw [get_stats_obj hk hq]
    simp [hg, hl]

/-- Witness for C4 at concrete inputs: an exception from the call and a parse
failure each surface as 500 with the underlying message embedded. -/
theorem C4_witness :
    (get_stats (initState (some "key")) (fun _ => .error "boom")
      (fun _ => .ok .null) (.obj [("query", .str "Fe")])).1 =
      .resp 500 (genFailBody "boom") ∧
    (get_stats (initState (some "key")) (fun _ => .ok "not json")
      (fun _ => .error "Expecting value") (.obj [("query", .str "Fe")])).1 =
      .resp 500 (genFailBody "Expecting value") :=
  ⟨(C4_upstream_failure_500 (initState (some "key")) (fun _ => .error "boom")
      (fun _ => .ok .null) [("query", .str "Fe")] (.str "Fe") rfl rfl).1 "boom" rfl,
   (C4_upstream_failure_500 (initState (some "key")) (fun _ => .ok "not json")
      (fun _ => .error "Expecting value") [("query", .str "Fe")] (.str "Fe")
      rfl rfl).2 "not json" "Expecting value" rfl rfl⟩

/-- C1: with the credential present, a body carrying a query, and an upstream
outcome honouring the requested structured-output schema and the prompt's
rating rubric (the trust assumption the spec states the system makes), the
successful status-200 response is the conforming object itself: all seven
required fields of `STATS_SCHEMA` are present and the three numeric stats are
integers within [0, 10]. -/
theorem C1_success_record_invariant (st : ModuleState)
    (generate_content : GenRequest → Except String String)
    (loads : String → Except String Json) (fs : List (String × Json))
    (q : Json) (stats_text : String) (parsed : Json)
    (hk : pyNotOpt st.API_KEY = false)
    (hq : lookupStr fs "query" = some q)
    (hg : generate_content (mkRequest st q) = .ok stats_text)
    (hl : loads stats_text = .ok parsed)
    (hschema : schemaConforms STATS_SCHEMA parsed = true)
    (hrange : ratingsInRange parsed = true) :
    (get_stats st generate_content loads (.obj fs)).1 = .resp 200 parsed ∧
    (∀ k ∈ requiredKeys STATS_SCHEMA, hasKey parsed k = true) ∧
    (∀ k ∈ ["stability", "reactivity", "explosiveness"],
      ∃ n : Int, jget parsed k = some (.num n) ∧ 0 ≤ n ∧ n ≤ 10) := by
  refine ⟨?_, schemaConforms_required hschema, ?_⟩
  · rw [get_stats_obj hk hq]
    simp [hg, hl]
  · unfold ratingsInRange at hrange
    simp only [Bool.and_eq_true] at hrange
    intro k hkmem
    simp only [List.mem_cons, List.not_mem_nil, or_false] at hkmem
    rcases hkmem with rfl | rfl | rfl
    · exact intFieldInRange_spec hrange.1.1
    · exact intFieldInRange_spec hrange.1.2
    · exact intFieldInRange_spec hrange.2

/-- Witness for C1 at a concrete input: a conforming Stats Record for `Fe` is
relayed with status 200 and carries all seven fields with in-range ratings. -/
theorem C1_witness :
    pyNotOpt (initState (some "key")).API_KEY = false ∧
    schemaConforms STATS_SCHEMA goodRecord = true ∧
    ratingsInRange goodRecord = true ∧
    ((get_stats (initState (some "key")) (fun _ => .ok "txt")
        (fun _ => .ok goodRecord) (.obj [("query", .str "Fe")])).1 =
        .resp 200 goodRecord ∧
      (∀ k ∈ requiredKeys STATS_SCHEMA, hasKey goodRecord k = true) ∧
      (∀ k ∈ ["stability", "reactivity", "explosiveness"],
        ∃ n : Int, jget goodRecord k = some (.num n) ∧ 0 ≤ n ∧ n ≤ 10)) :=
  ⟨rfl, by decide, by decide,
    C1_success_record_invariant (initState (some "key")) (fun _ => .ok "txt")
      (fun _ => .ok goodRecord) [("query", .str "Fe")] (.str "Fe") "txt" goodRecord
      rfl rfl rfl rfl (by decide) (by decide)⟩

/-- Counterexample to C2 as stated: a request body whose `query` field is
present but the empty string passes the validation of line 78 (the membership
test succeeds), so the handler does not return 400 — it proceeds to the
upstream call and here relays its failure as 500. -/
theorem C2_counterexample_empty_query_accepted :
    (get_stats (initState (some "key")) (fun _ => .error "boom")
      (fun _ => .error "x") (.obj [("query", .str "")])).1 =
      .resp 500 (genFailBody "boom") := rfl

/-- C2 (amended): for every request whose JSON body is empty (falsy) or is a
dictionary missing the `query` key, the endpoint returns status 400 with the
fixed error body, provided the credential is present.  A present-but-empty
`query` field is not rejected. -/
theorem C2_missing_query_400 (st : ModuleState)
    (generate_content : GenRequest → Except String String)
    (loads : String → Except String Json) (data : Json)
    (hk : pyNotOpt st.API_KEY = false)
    (hv : pyTruthy data = false ∨
      (∃ fs, data = .obj fs ∧ hasKey data "query" = false)) :
    (get_stats st generate_content loads data).1 = .resp 400 missingQueryBody := by
  have hv' : pyTruthy data = false ∨ pyContains data "query" = .ok false := by
    rcases hv with hv | ⟨fs, rfl, hkey⟩
    · exact .inl hv
    · right
      have hkey' : (fs.any fun p => p.1 == "query") = false := by
        simpa [hasKey] using hkey
      show Except.ok (fs.any fun p => p.1 == "query") = Except.ok false
      rw [hkey']
  rw [get_stats_400 hk hv']

/-- Witness for the amended C2 at concrete inputs: a truthy dictionary missing
`query` and the empty dictionary both receive the 400 error body. -/
theorem C2_witness :
    (get_stats (initState (some "key")) (fun _ => .ok "txt") (fun _ => .ok .null)
      (.obj [("formula", .str "H2O")])).1 = .resp 400 missingQueryBody ∧
    (get_stats (initState (some "key")) (fun _ => .ok "txt") (fun _ => .ok .null)
      (.obj [])).1 = .resp 400 missingQueryBody :=
  ⟨C2_missing_query_400 (initState (some "key")) (fun _ => .ok "txt")
      (fun _ => .ok .null) (.obj [("formula", .str "H2O")]) rfl
      (.inr ⟨[("formula", .str "H2O")], rfl, rfl⟩),
   C2_missing_query_400 (initState (some "key")) (fun _ => .ok "txt")
      (fun _ => .ok .null) (.obj []) rfl (.inl rfl)⟩

/-- Counterexample to C6 as stated: the JSON body `5` is truthy, and the
membership test `"query" in 5` of line 78 raises a `TypeError` that no
handler code catches — the response is the framework's default error page,
not a handler-produced JSON object with an `error` field, so other error
shapes do occur. -/
theorem C6_counterexample_uncaught_typeerror :
    (get_stats (initState (some "key")) (fun _ => .ok "txt") (fun _ => .ok .null)
      (.num 5)).1 =
      .uncaught "argument of type \x27int\x27 is not iterable" := rfl

/-- C6 (amended): for every request whose parsed JSON body is a dictionary or
is falsy, the response is a handler-produced JSON body whose status is 200
(the relayed record) or else 400 / 500 with an object carrying a single
`error` string field; no other statuses or shapes occur on such bodies.
(Truthy non-dictionary bodies can instead escape with an uncaught
`TypeError`.) -/
theorem C6_response_taxonomy (st : ModuleState)
    (generate_content : GenRequest → Except String String)
    (loads : String → Except String Json) (data : Json)
    (hd : pyTruthy data = false ∨ ∃ fs, data = .obj fs) :
    ∃ status body, (get_stats st generate_content loads data).1 =
        .resp status body ∧
      (status = 200 ∨ ((status = 400 ∨ status = 500) ∧
        ∃ msg, body = .obj [("error", .str msg)])) := by
  cases hk : pyNotOpt st.API_KEY with
  | true =>
    rw [get_stats_no_key hk]
    exact ⟨500, missingKeyBody, rfl, .inr ⟨.inr rfl, _, rfl⟩⟩
  | false =>
    rcases hd with hd | ⟨fs, rfl⟩
    · rw [get_stats_400 hk (.inl hd)]
      exact ⟨400, missingQueryBody, rfl, .inr ⟨.inl rfl, _, rfl⟩⟩
    · cases hc : (fs.any fun p => p.1 == "query") with
      | false =>
        rw [get_stats_400 hk (.inr (by simp [pyContains, hc]))]
        exact ⟨400, missingQueryBody, rfl, .inr ⟨.inl rfl, _, rfl⟩⟩
      | true =>
        obtain ⟨q, hq⟩ := any_lookupStr hc
        rw [get_stats_obj hk hq]
        cases hg : generate_content (mkRequest st q) with
        | error e =>
          exact ⟨500, genFailBody e, by simp [hg], .inr ⟨.inr rfl, _, rfl⟩⟩
        | ok stats_text =>
          cases hl : loads stats_text with
          | error e =>
            exact ⟨500, genFailBody e, by simp [hg, hl], .inr ⟨.inr rfl, _, rfl⟩⟩
          | ok parsed =>
            exact ⟨200, parsed, by simp [hg, hl], .inl rfl⟩

/-- Witness for the amended C6 at a concrete input: a dictionary body with a
query, successful upstream. -/
theorem C6_witness :
    ∃ status body,
      (get_stats (initState (some "key")) (fun _ => .ok "txt")
        (fun _ => .ok goodRecord) (.obj [("query", .str "Fe")])).1 =
        .resp status body ∧
      (status = 200 ∨ ((status = 400 ∨ status = 500) ∧
        ∃ msg, body = .obj [("error", .str msg)])) :=
  C6_response_taxonomy (initState (some "key")) (fun _ => .ok "txt")
    (fun _ => .ok goodRecord) (.obj [("query", .str "Fe")])
    (.inr ⟨[("query", .str "Fe")], rfl⟩)

/-- Counterexample to C10 as stated: the body `true` parses to a truthy
non-object value, but it does not yield 400 — the membership test of line 78
raises an uncaught `TypeError` instead. -/
theorem C10_counterexample_truthy_nonobject :
    (get_stats (initState (some "key")) (fun _ => .ok "txt") (fun _ => .ok .null)
      (.bool true)).1 =
      .uncaught "argument of type \x27bool\x27 is not iterable" := rfl

/-- C10 (amended): with the credential present, (a) any dictionary body that
contains the key `query` passes validation regardless of the value's type or
content — the upstream capability is invoked exactly once with the query value
interpolated into the request content; and (b) the 400 error occurs exactly
when the body is falsy or the membership test `"query" in data` runs without
error and returns false (a dictionary without the key, a list without the
element `"query"`, a string without that substring).  Truthy numbers, booleans
— and lists or strings that pass the membership test — raise an uncaught
`TypeError` instead of a 400. -/
theorem C10_validation_characterisation (st : ModuleState)
    (generate_content : GenRequest → Except String String)
    (loads : String → Except String Json)
    (hk : pyNotOpt st.API_KEY = false) :
    (∀ fs q, lookupStr fs "query" = some q →
      (get_statsT st generate_content loads (.obj fs)).2.1 = [mkRequest st q]) ∧
    (∀ data, (get_stats st generate_content loads data).1 =
        .resp 400 missingQueryBody ↔
      (pyTruthy data = false ∨ pyContains data "query" = .ok false)) := by
  constructor
  · intro fs q hq
    rw [get_statsT_obj hk hq]
    cases hg : generate_content (mkRequest st q) with
    | error e => simp
    | ok stats_text =>
      cases hl : loads stats_text with
      | error e => simp [hl]
      | ok parsed => simp [hl]
  · intro data
    constructor
    · intro h
      cases ht : pyTruthy data with
      | false => exact .inl rfl
      | true =>
        right
        cases hc : pyContains data "query" with
        | error m =>
          exfalso
          have huncaught : (get_stats st generate_content loads data).1 =
              .uncaught m := by
            simp [get_stats, hk, ht, hc]
          rw [huncaught] at h
          exact absurd h (by simp)
        | ok b =>
          cases b with
          | false => rfl
          | true =>
            exfalso
            cases data with
            | obj fs =>
              have hany : (fs.any fun p => p.1 == "query") = true := by
                simpa [pyContains] using hc
              obtain ⟨q, hq⟩ := any_lookupStr hany
              rw [get_stats_obj hk hq] at h
              cases hg : generate_content (mkRequest st q) with
              | error e => simp [hg] at h
              | ok stats_text =>
                cases hl : loads stats_text with
                | error e => simp [hg, hl] at h
                | ok parsed =>
                  simp [hg, hl, missingQueryBody] at h
            | arr elems => simp [get_stats, hk, ht, hc, pySubscript] at h
            | str s => simp [get_stats, hk, ht, hc, pySubscript] at h
            | num n => simp [pyContains] at hc
            | bool b => simp [pyContains] at hc
            | null => simp [pyContains] at hc
    · intro hv
      rw [get_stats_400 hk hv]

/-- Witness for the amended C10 at a concrete input: a `query` whose value is a
nested object still passes validation and is forwarded upstream once, and the
400-characterisation instantiated at the empty-dictionary body. -/
theorem C10_witness :
    (get_statsT (initState (some "key")) (fun _ => .error "boom")
        (fun _ => .ok .null) (.obj [("query", .obj [("nested", .num 1)])])).2.1 =
      [mkRequest (initState (some "key")) (.obj [("nested", .num 1)])] ∧
    ((get_stats (initState (some "key")) (fun _ => .error "boom")
        (fun _ => .ok .null) (.obj [])).1 = .resp 400 missingQueryBody ↔
      (pyTruthy (.obj []) = false ∨ pyContains (.obj []) "query" = .ok false)) :=
  ⟨(C10_validation_characterisation (initState (some "key")) (fun _ => .error "boom")
      (fun _ => .ok .null) rfl).1 [("query", .obj [("nested", .num 1)])]
      (.obj [("nested", .num 1)]) rfl,
   (C10_validation_characterisation (initState (some "key")) (fun _ => .error "boom")
      (fun _ => .ok .null) rfl).2 (.obj [])⟩
